import Mathlib

/-!
Verification of "Hamlet's Descent" (a pygame 2D platformer).

This file shallowly embeds the per-frame simulation code of the repository:
the player kinematic update (`Player.update` in `hamlets_descent034.py`),
the actor state-machine selection (`Player.update` in `bossbattle101.py`),
the combat resolution steps of the Act-1 main loop and the boss fight
(`main` and `boss_fight` in `hamlets_descent034.py`), enemy and boss hit
handlers (`GhostEnemy.take_hit`, `Boss.take_hit`), the oscillating platform
(`Platform.update`) and the adaptive difficulty controller
(`AdaptiveEngine.update`).

Python floats are modelled as rationals (ℚ); pygame `Rect` coordinates are
machine integers, and assigning a float to a `Rect` field truncates toward
zero, modelled by `pyInt`.
-/

namespace Hamlet

set_option maxRecDepth 160000

/-- Truncation toward zero, the conversion pygame applies when a float is
assigned to an integer `Rect` field. -/
def pyInt (q : ℚ) : ℤ :=
  if 0 ≤ q then ⌊q⌋ else ⌈q⌉

-- Global constants of hamlets_descent034.py
def SCREEN_HEIGHT : ℤ := 1200
def GRAVITY : ℚ := 1/2
def PLAYER_SPEED : ℚ := 5
def JUMP_STRENGTH : ℚ := -12
def COYOTE_TIME : ℚ := 1/10
def JUMP_BUFFER_TIME : ℚ := 1/10
def VARIABLE_JUMP_MULT : ℚ := 1/2
def DASH_SPEED : ℚ := 15
def DASH_DURATION : ℚ := 1/5
def DASH_COOLDOWN : ℚ := 1

/-- A pygame rectangle: integer top-left corner plus width and height. -/
structure Rect where
  x : ℤ
  y : ℤ
  w : ℤ
  h : ℤ
deriving DecidableEq, Repr

def Rect.bottom (r : Rect) : ℤ := r.y + r.h

def Rect.right (r : Rect) : ℤ := r.x + r.w

/-- Overlap test `Rect.colliderect`: axis-aligned intersection (strict inequalities, as in
pygame). -/
def collide (a b : Rect) : Bool :=
  a.x < b.right && b.x < a.right && a.y < b.bottom && b.y < a.bottom

/-- The per-frame input snapshot (`pygame.key.get_pressed()` reads used by
the player update). -/
structure Keys where
  left : Bool
  right : Bool
  space : Bool
  a : Bool
  s : Bool
  lshift : Bool
deriving DecidableEq, Repr

def Keys.none : Keys :=
  { left := false, right := false, space := false, a := false, s := false,
    lshift := false }

/-- Animation states of the player in hamlets_descent034.py (`state` string;
`dash` has no frame set of its own and falls back to `idle` frames). -/
inductive PState where
  | idle | run | jump | attack1 | attack2 | dash
deriving DecidableEq, Repr

/-- Predicate for `state.startswith('attack')`. -/
def PState.isAttack : PState → Bool
  | .attack1 => true
  | .attack2 => true
  | _ => false

/-- Player state, the fields of `Player` in hamlets_descent034.py read or
written by `Player.update`. -/
structure Player where
  rect : Rect
  vx : ℚ
  vy : ℚ
  on_ground : Bool
  timer : ℚ
  adelay : ℚ
  idx : ℕ
  state : PState
  jump_buffer : ℚ
  coyote : ℚ
  health : ℤ
  max_health : ℤ
  invulnerable : ℚ
  facing_right : Bool
  dash_cooldown : ℚ
  dashing : Bool
  dash_timer : ℚ
  damage_multiplier : ℚ
  speed_multiplier : ℚ
  pu_speed : ℚ
  pu_damage : ℚ
deriving DecidableEq, Repr

/-- Powerup-timer decay and the multipliers derived from them (first block
of `Player.update`). -/
def powerupStep (p : Player) (dt : ℚ) : Player :=
  let pus := max 0 (p.pu_speed - dt)
  let pud := max 0 (p.pu_damage - dt)
  { p with pu_speed := pus, pu_damage := pud,
           speed_multiplier := if 0 < pus then 3/2 else 1,
           damage_multiplier := if 0 < pud then 2 else 1 }

/-- Dash mechanic and horizontal movement selection (`Player.update`:
dash cooldown, dash start, dash velocity or key-driven `vx`). -/
def dashMoveStep (p : Player) (k : Keys) (dt : ℚ) : Player :=
  let p := { p with dash_cooldown := max 0 (p.dash_cooldown - dt) }
  let p :=
    if k.lshift ∧ p.dash_cooldown = 0 ∧ ¬p.dashing then
      { p with dashing := true, dash_timer := DASH_DURATION,
               dash_cooldown := DASH_COOLDOWN, invulnerable := DASH_DURATION }
    else p
  if p.dashing then
    let t := p.dash_timer - dt
    if t ≤ 0 then { p with dash_timer := t, dashing := false }
    else { p with dash_timer := t,
                  vx := DASH_SPEED * (if p.facing_right then 1 else -1) }
  else
    let p := { p with vx := 0 }
    if k.left then
      { p with vx := -PLAYER_SPEED * p.speed_multiplier, facing_right := false }
    else if k.right then
      { p with vx := PLAYER_SPEED * p.speed_multiplier, facing_right := true }
    else p

/-- Invulnerability countdown decay (`self.invulnerable = max(0,
self.invulnerable - dt)`). -/
def invulnStep (p : Player) (dt : ℚ) : Player :=
  { p with invulnerable := max 0 (p.invulnerable - dt) }

/-- Coyote and jump-buffer timer refresh/decay (`Player.update`, the
`# coyote & buffer` lines). -/
def timersStep (p : Player) (k : Keys) (dt : ℚ) : Player :=
  { p with
      coyote := if p.on_ground then COYOTE_TIME else max 0 (p.coyote - dt),
      jump_buffer :=
        if k.space then JUMP_BUFFER_TIME else max 0 (p.jump_buffer - dt) }

/-- The jump trigger (`Player.update`, the `# jump` lines): if both grace
timers are strictly positive, set `vy` to the jump strength, clear
`on_ground` and zero both timers. -/
def jumpStep (p : Player) : Player :=
  if 0 < p.jump_buffer ∧ 0 < p.coyote then
    { p with vy := JUMP_STRENGTH, on_ground := false,
             coyote := 0, jump_buffer := 0 }
  else p

/-- Gravity accumulation and vertical integration (`self.vy += GRAVITY;
self.rect.y += self.vy`). -/
def gravityStep (p : Player) : Player :=
  let vy := p.vy + GRAVITY
  { p with vy := vy, rect := { p.rect with y := pyInt ((p.rect.y : ℚ) + vy) } }

/-- Platform collision loop (`Player.update`, `# Platform collision`):
`on_ground` is cleared, then each platform whose top edge the falling
player's bottom edge crosses while horizontally overlapping clamps the
player onto it. -/
def platformCollide (p : Player) (plats : List Rect) : Player :=
  let p := { p with on_ground := false }
  plats.foldl
    (fun p r =>
      if 0 < p.vy ∧ r.y < p.rect.bottom ∧ p.rect.bottom < r.bottom ∧
         p.rect.x < r.right ∧ r.x < p.rect.right then
        { p with rect := { p.rect with y := r.y - p.rect.h },
                 vy := 0, on_ground := true }
      else p)
    p

/-- World-floor collision (`# ground collision`). -/
def groundStep (p : Player) : Player :=
  if SCREEN_HEIGHT ≤ p.rect.bottom then
    { p with rect := { p.rect with y := SCREEN_HEIGHT - p.rect.h },
             vy := 0, on_ground := true }
  else p

/-- Variable jump height (`# variable jump`): extra gravity while rising
with the jump key released. -/
def varJumpStep (p : Player) (k : Keys) : Player :=
  if p.vy < 0 ∧ ¬k.space then
    { p with vy := p.vy + GRAVITY * VARIABLE_JUMP_MULT }
  else p

/-- Horizontal integration (`self.rect.x += self.vx`). -/
def horizStep (p : Player) : Player :=
  { p with rect := { p.rect with x := pyInt ((p.rect.x : ℚ) + p.vx) } }

/-- Animation-state selection of hamlets_descent034.py (`# state logic`). -/
def selectState034 (p : Player) (k : Keys) : PState :=
  if p.dashing then .dash
  else if p.state.isAttack then p.state
  else if k.a then .attack1
  else if k.s then .attack2
  else if ¬p.on_ground then .jump
  else if p.vx ≠ 0 then .run
  else .idle

/-- Apply the selected state; on a transition reset frame index and timer. -/
def stateStep (p : Player) (k : Keys) : Player :=
  let new := selectState034 p k
  if new ≠ p.state then { p with state := new, idx := 0, timer := 0 } else p

/-- Frame count of the animation for a state: `anims.get(new,
anims['idle'])` — `dash` has no entry and falls back to the idle frames. -/
def flen (anims : PState → ℕ) (st : PState) : ℕ :=
  if st = .dash then anims .idle else anims st

/-- Frame-index advance (`# animate`): past the delay, step the index
modulo the frame count; an attack state ending on its last frame returns
to `idle`. -/
def animStep (anims : PState → ℕ) (p : Player) (dt : ℚ) : Player :=
  let p := { p with timer := p.timer + dt }
  if p.adelay ≤ p.timer then
    let n := flen anims p.state
    let i := (p.idx + 1) % n
    let p := { p with timer := 0, idx := i }
    if p.state.isAttack ∧ i = n - 1 then { p with state := .idle, idx := 0 }
    else p
  else p

/-- The full per-frame `Player.update(dt, platforms)` of
hamlets_descent034.py, as the composition of its stages in source order. -/
def playerUpdate (anims : PState → ℕ) (p : Player) (k : Keys) (dt : ℚ)
    (plats : List Rect) : Player :=
  animStep anims
    (stateStep
      (horizStep
        (varJumpStep
          (groundStep
            (platformCollide
              (gravityStep
                (jumpStep
                  (timersStep
                    (invulnStep (dashMoveStep (powerupStep p dt) k dt) dt)
                    k dt)))
              plats))
          k))
      k)
    dt

/-! ### Combat: ghosts, the boss, and the Act-1 resolution steps -/

/-- A ghost enemy: the fields of `GhostEnemy` that combat touches
(`alive` models pygame sprite-group membership; `kill()` clears it). -/
structure Ghost where
  rect : Rect
  health : ℤ
  row : ℤ
  alive : Bool
deriving DecidableEq, Repr

/-- Hit handler `GhostEnemy.take_hit` of hamlets_descent034.py: decrement health; a
non-lethal hit advances the damage-stage row and scores 10, a lethal one
kills the sprite and scores 20. -/
def ghostTakeHit (g : Ghost) : Ghost × ℤ :=
  let h := g.health - 1
  if 0 < h then ({ g with health := h, row := min 2 (3 - h) }, 10)
  else ({ g with health := h, alive := false }, 20)

/-- Hit handler `Boss.take_hit(damage)` of hamlets_descent034.py: subtract the damage;
if health drops to 0 or below, `kill()` and score 100, else score 5.
Returns (new stored health, destroyed, points). -/
def bossTakeHit (health damage : ℚ) : ℚ × Bool × ℤ :=
  let h := health - damage
  if h ≤ 0 then (h, true, 100) else (h, false, 5)

/-- The combat-facing slice of the Act-1 game loop state of
hamlets_descent034.py `main`: player health and respawn bookkeeping. -/
structure GameC where
  health : ℤ
  max_health : ℤ
  invulnerable : ℚ
  deaths : ℕ
  combo : ℕ
  x : ℤ
  start_x : ℤ
deriving DecidableEq, Repr

/-- One ghost-touches-player hit of the Act-1 loop (`main`, the
`# Ghost hits player` block body): 10 damage, 1 s invulnerability, and a
full respawn when health drops to 0 or below. -/
def act1Hit (s : GameC) : GameC :=
  let s := { s with health := s.health - 10, invulnerable := 1 }
  if s.health ≤ 0 then
    { s with deaths := s.deaths + 1, health := s.max_health,
             x := s.start_x, combo := 0 }
  else s

/-- The Act-1 contact-damage step (`main`, `# Ghost hits player`): when the
player is not invulnerable, every overlapping ghost deals one `act1Hit`
and is killed (`g.kill()` removes it from the group). -/
def act1ContactStep (pr : Rect) (s : GameC) (ghosts : List Ghost) :
    GameC × List Ghost :=
  if s.invulnerable ≤ 0 then
    let hits := ghosts.filter (fun g => collide pr g.rect)
    (hits.foldl (fun s _ => act1Hit s) s,
     ghosts.filter (fun g => !collide pr g.rect))
  else (s, ghosts)

/-- The Act-1 player-attack resolution (`main`, `# Combat collisions`):
while in an attack state, every overlapping ghost takes a hit, the score
grows by `points * (combo + 1)` and the combo counter increments; killed
ghosts leave the group. The pair carried is (score, combo). -/
def attackResolve (pr : Rect) (st : PState) (sc : ℤ × ℕ)
    (ghosts : List Ghost) : (ℤ × ℕ) × List Ghost :=
  if st.isAttack then
    let hits := ghosts.filter (fun g => collide pr g.rect)
    let sc := hits.foldl
      (fun (p : ℤ × ℕ) g => (p.1 + (ghostTakeHit g).2 * (p.2 + 1), p.2 + 1))
      sc
    let updated := ghosts.map
      (fun g => if collide pr g.rect then (ghostTakeHit g).1 else g)
    (sc, updated.filter (fun g => g.alive))
  else (sc, ghosts)

/-- The combat-facing slice of the player inside `boss_fight`. -/
structure BPlayer where
  rect : Rect
  health : ℤ
  invulnerable : ℚ
deriving DecidableEq, Repr

/-- The boss-fight player-damage step (`boss_fight`, `# Player damage`):
with invulnerability expired, enemy or projectile contact deals 10 damage
(projectiles are killed by `spritecollide(..., True)`, enemies are not),
then boss contact deals 20 more. Returns (player, enemies, projectiles). -/
def bossContactStep (p : BPlayer) (enemies projectiles : List Rect)
    (bossAlive : Bool) (bossRect : Rect) : BPlayer × List Rect × List Rect :=
  if p.invulnerable ≤ 0 then
    let ehits := enemies.filter (fun r => collide p.rect r)
    let phits := projectiles.filter (fun r => collide p.rect r)
    let projs := projectiles.filter (fun r => !collide p.rect r)
    let p :=
      if ¬ehits.isEmpty ∨ ¬phits.isEmpty then
        { p with health := p.health - 10, invulnerable := 1 }
      else p
    let p :=
      if bossAlive ∧ collide p.rect bossRect then
        { p with health := p.health - 20, invulnerable := 3/2 }
      else p
    (p, enemies, projs)
  else (p, enemies, projectiles)

/-- One frame of invulnerability decay, as performed by `Player.update`
(`self.invulnerable = max(0, self.invulnerable - dt)`) at 60 FPS. -/
def invulnDecay (q : ℚ) : ℚ := max 0 (q - 1/60)

/-! ### Oscillating platforms -/

/-- The `Platform` of hamlets_descent034.py: a rectangle with an optional
horizontal oscillation (range 200, speed 2, starting direction 1). -/
structure Platform where
  x : ℤ
  y : ℤ
  w : ℤ
  h : ℤ
  moving : Bool
  move_range : ℤ
  move_speed : ℤ
  start_x : ℤ
  direction : ℤ
deriving DecidableEq, Repr

/-- Constructor `Platform.__init__(x, y, width, height, moving)`. -/
def mkPlatform (x y w h : ℤ) (moving : Bool) : Platform :=
  { x := x, y := y, w := w, h := h, moving := moving,
    move_range := 200, move_speed := 2, start_x := x, direction := 1 }

/-- Per-frame `Platform.update(dt)`: a moving platform steps by `move_speed *
direction` and reverses direction once its displacement from `start_x`
exceeds `move_range`. `dt` is unused by the source. -/
def Platform.update (p : Platform) (_dt : ℚ) : Platform :=
  if p.moving then
    let x := p.x + p.move_speed * p.direction
    if p.move_range < |x - p.start_x| then
      { p with x := x, direction := -p.direction }
    else { p with x := x }
  else p

/-! ### Adaptive difficulty -/

/-- The `AdaptiveEngine` of hamlets_descent034.py. -/
structure AdaptiveEngine where
  diff : ℚ
  espeed : ℚ
  spawn_rate : ℚ
deriving DecidableEq, Repr

/-- Initial knobs, `AdaptiveEngine.__init__`. -/
def AdaptiveEngine.init : AdaptiveEngine :=
  { diff := 1, espeed := 2, spawn_rate := 1/100 }

/-- Controller step `AdaptiveEngine.update(perf)`: shrink the knobs by 0.9 (with floors)
after more than three deaths, grow them by 1.1 (with caps) after a
deathless fast segment, else leave them alone. -/
def AdaptiveEngine.update (e : AdaptiveEngine) (deaths : ℕ) (time : ℚ) :
    AdaptiveEngine :=
  if 3 < deaths then
    { diff := max (1/2) (e.diff * (9/10)),
      espeed := max 1 (e.espeed * (9/10)),
      spawn_rate := max (1/200) (e.spawn_rate * (9/10)) }
  else if deaths = 0 ∧ time < 60 then
    { diff := min 2 (e.diff * (11/10)),
      espeed := min 5 (e.espeed * (11/10)),
      spawn_rate := min (1/50) (e.spawn_rate * (11/10)) }
  else e

/-! ### The bossbattle101 state machine -/

/-- Animation states of the `Player` in bossbattle101.py (which adds a
`block` state). -/
inductive BState where
  | idle | run | jump | attack1 | attack2 | block
deriving DecidableEq, Repr

/-- The animation-state selection of bossbattle101.py `Player.update`:
attack states are kept; otherwise attack input, block input, airborne,
moving and idle are tried in that order. -/
def selectState101 (cur : BState) (k : Keys) (on_ground : Bool)
    (vel_x : ℚ) : BState :=
  if cur = .attack1 ∨ cur = .attack2 then cur
  else if k.a then .attack1
  else if k.s then .block
  else if ¬on_ground then .jump
  else if vel_x ≠ 0 then .run
  else .idle

/-! ### Concrete states used by witnesses and counterexamples -/

/-- An animation table with three frames per state, the frame counts the
loader requests (`keys=[('idle',3),('run',3),('jump',3),('attack1',3),
('attack2',3)]`). -/
def anims3 : PState → ℕ := fun _ => 3

/-- Only the jump key held. -/
def kSpace : Keys := { Keys.none with space := true }

/-- The player resting on the world floor at x = 100 (the Act-1 spawn),
as `Player.__init__(100, SCREEN_HEIGHT-100)` leaves it after settling:
bottom edge on the floor, no velocity, no live timers. -/
def pRest : Player :=
  { rect := { x := 100, y := 1077, w := 110, h := 123 },
    vx := 0, vy := 0, on_ground := true, timer := 0, adelay := 3/20,
    idx := 0, state := .idle, jump_buffer := 0, coyote := 0,
    health := 100, max_health := 100, invulnerable := 0,
    facing_right := true, dash_cooldown := 0, dashing := false,
    dash_timer := 0, damage_multiplier := 1, speed_multiplier := 1,
    pu_speed := 0, pu_damage := 0 }

/-- A player in mid-air, falling with `vy = 3`. -/
def pAir : Player :=
  { pRest with on_ground := false, vy := 3,
               rect := { x := 100, y := 500, w := 110, h := 123 } }

/-- A player state whose coyote and jump-buffer timers are both live. -/
def pJump : Player := { pRest with jump_buffer := 1/10, coyote := 1/10 }

/-- A player bounding box used in the combat scenarios. -/
def prOv : Rect := { x := 100, y := 1000, w := 110, h := 123 }

/-- A fresh ghost (health 3) whose box overlaps `prOv`. -/
def gOv : Ghost :=
  { rect := { x := 120, y := 1010, w := 40, h := 40 },
    health := 3, row := 0, alive := true }

/-- An Act-1 combat state with the invulnerability window still open. -/
def sInv : GameC :=
  { health := 100, max_health := 100, invulnerable := 1/2, deaths := 0,
    combo := 0, x := 100, start_x := 100 }

/-- An Act-1 combat state with no invulnerability left. -/
def sOpen : GameC :=
  { health := 100, max_health := 100, invulnerable := 0, deaths := 0,
    combo := 0, x := 100, start_x := 100 }

/-- The boss-fight player at full health with no invulnerability. -/
def pB : BPlayer :=
  { rect := { x := 100, y := 1000, w := 110, h := 123 },
    health := 100, invulnerable := 0 }

/-- An enemy box overlapping the boss-fight player. -/
def eOv : Rect := { x := 120, y := 1010, w := 40, h := 40 }

/-- A far-away boss box (no boss contact in the scenarios). -/
def bFar : Rect := { x := 5000, y := 0, w := 10, h := 10 }

/-! ### C1: the jump gate -/

/-- C1: in the per-frame update, the jump check (`jumpStep`, the `# jump`
block of `Player.update`, evaluated right after the timers are refreshed)
triggers exactly when both the jump-buffer and the coyote timer are
strictly positive; on a trigger it sets `vy` to `JUMP_STRENGTH`, clears
`on_ground`, and zeroes both timers, and otherwise it changes nothing. -/
theorem c1_jump_gate (t : Player) :
    (0 < t.jump_buffer ∧ 0 < t.coyote →
      (jumpStep t).vy = JUMP_STRENGTH ∧ (jumpStep t).on_ground = false ∧
      (jumpStep t).coyote = 0 ∧ (jumpStep t).jump_buffer = 0) ∧
    (¬(0 < t.jump_buffer ∧ 0 < t.coyote) → jumpStep t = t) := by
  constructor
  · intro h
    rw [jumpStep, if_pos h]
    exact ⟨rfl, rfl, rfl, rfl⟩
  · intro h
    rw [jumpStep, if_neg h]

/-- Witness for C1 at a live-timers state. -/
theorem c1_jump_gate_witness :
    (jumpStep pJump).vy = JUMP_STRENGTH ∧ (jumpStep pJump).on_ground = false ∧
    (jumpStep pJump).coyote = 0 ∧ (jumpStep pJump).jump_buffer = 0 :=
  (c1_jump_gate pJump).1 (by constructor <;> with_unfolding_all decide)

/-! ### C2: one frame of jumping from the ground -/

/-- C2: refutation. Starting on the ground holding jump, one frame with
`dt = 1/60` does not leave `vy` at `JUMP_STRENGTH`: gravity is added after
the jump trigger inside the same `Player.update`, so the frame ends with
`vy = -11.5`, not `-12`. -/
theorem c2_counterexample :
    (playerUpdate anims3 pRest kSpace (1/60) []).vy ≠ JUMP_STRENGTH ∧
    (playerUpdate anims3 pRest kSpace (1/60) []).vy = -23/2 := by
  have h : (playerUpdate anims3 pRest kSpace (1/60) []).vy = -23/2 := by
    with_unfolding_all rfl
  refine ⟨?_, h⟩
  rw [h, JUMP_STRENGTH]
  norm_num

/-- C2 (amended): from the grounded state holding jump, one frame of
`Player.update` with `dt = 1/60` ends with `vy = JUMP_STRENGTH + GRAVITY`
(the trigger sets `vy := JUMP_STRENGTH`, then the same frame adds gravity)
and with `on_ground = false`. -/
theorem c2_one_frame_jump :
    (playerUpdate anims3 pRest kSpace (1/60) []).vy = JUMP_STRENGTH + GRAVITY ∧
    (playerUpdate anims3 pRest kSpace (1/60) []).on_ground = false := by
  constructor <;> with_unfolding_all rfl

/-! ### C3: dt = 0 is not a no-op -/

/-- C3: refutation. The physics of `Player.update` is per-frame, not
dt-scaled: with `dt = 0` gravity is still accumulated and integrated, so
two successive `dt = 0` updates change an airborne player's velocity and
position (here `vy` goes 3 → 4 and `y` goes 500 → 507). -/
theorem c3_counterexample :
    (playerUpdate anims3 (playerUpdate anims3 pAir Keys.none 0 [])
        Keys.none 0 []).vy ≠ pAir.vy ∧
    (playerUpdate anims3 (playerUpdate anims3 pAir Keys.none 0 [])
        Keys.none 0 []).rect.y ≠ pAir.rect.y := by
  have h1 : (playerUpdate anims3 (playerUpdate anims3 pAir Keys.none 0 [])
      Keys.none 0 []).vy = 4 := by with_unfolding_all rfl
  have h2 : (playerUpdate anims3 (playerUpdate anims3 pAir Keys.none 0 [])
      Keys.none 0 []).rect.y = 507 := by with_unfolding_all rfl
  have h3 : pAir.vy = 3 := by with_unfolding_all rfl
  have h4 : pAir.rect.y = 500 := by with_unfolding_all rfl
  rw [h1, h2, h3, h4]
  norm_num

/-! ### C4: the adaptive difficulty controller -/

/-- C4: `AdaptiveEngine.update` multiplies `diff` and `espeed` by 0.9 with
floors (0.5, 1) when `deaths > 3`; multiplies them by 1.1 with caps
(2.0, 5) when `deaths == 0` and the segment took under 60 s; and leaves
both unchanged otherwise. -/
theorem c4_adaptive (e : AdaptiveEngine) (deaths : ℕ) (t : ℚ) :
    (3 < deaths →
      (e.update deaths t).diff = max (1/2) (e.diff * (9/10)) ∧
      (e.update deaths t).espeed = max 1 (e.espeed * (9/10))) ∧
    (deaths = 0 → t < 60 →
      (e.update deaths t).diff = min 2 (e.diff * (11/10)) ∧
      (e.update deaths t).espeed = min 5 (e.espeed * (11/10))) ∧
    (¬3 < deaths → ¬(deaths = 0 ∧ t < 60) →
      (e.update deaths t).diff = e.diff ∧
      (e.update deaths t).espeed = e.espeed) := by
  refine ⟨fun h => ?_, fun h0 ht => ?_, fun h1 h2 => ?_⟩
  · rw [AdaptiveEngine.update, if_pos h]
    exact ⟨rfl, rfl⟩
  · rw [AdaptiveEngine.update, if_neg (by omega), if_pos ⟨h0, ht⟩]
    exact ⟨rfl, rfl⟩
  · rw [AdaptiveEngine.update, if_neg h1, if_neg h2]
    exact ⟨rfl, rfl⟩

/-- Witness for C4: the spec's own scenario `deaths=4, time=200` shrinks
both knobs by the 0.9 factor from the initial configuration. -/
theorem c4_adaptive_witness :
    (AdaptiveEngine.init.update 4 200).diff =
      max (1/2) (AdaptiveEngine.init.diff * (9/10)) ∧
    (AdaptiveEngine.init.update 4 200).espeed =
      max 1 (AdaptiveEngine.init.espeed * (9/10)) :=
  (c4_adaptive AdaptiveEngine.init 4 200).1 (by omega)

/-! ### C5: the animation-state priority -/

/-- C5: refutation. A player currently in the `block` state does not
remain in it until its animation completes: in the state selection of
bossbattle101.py only the attack states are protected, so a held attack
key moves a blocking player straight into `attack1`. -/
theorem c5_counterexample :
    selectState101 .block { Keys.none with a := true } true 0 = .attack1 ∧
    BState.attack1 ≠ BState.block := by
  constructor
  · with_unfolding_all rfl
  · intro h
    cases h

/-- C5 (amended): the selection of bossbattle101.py `Player.update` is a
fixed top-to-bottom priority in which only attack states are sticky:
a current attack state is kept; else attack input gives `attack1`; else
block input gives `block`; else airborne gives `jump`; else nonzero
horizontal velocity gives `run`; else `idle` — and with attack input held
the result is never `block` (attack shadows block). -/
theorem c5_priority (cur : BState) (k : Keys) (og : Bool) (vx : ℚ) :
    ((cur = .attack1 ∨ cur = .attack2) → selectState101 cur k og vx = cur) ∧
    (¬(cur = .attack1 ∨ cur = .attack2) → k.a = true →
      selectState101 cur k og vx = .attack1) ∧
    (¬(cur = .attack1 ∨ cur = .attack2) → k.a = false → k.s = true →
      selectState101 cur k og vx = .block) ∧
    (¬(cur = .attack1 ∨ cur = .attack2) → k.a = false → k.s = false →
      og = false → selectState101 cur k og vx = .jump) ∧
    (¬(cur = .attack1 ∨ cur = .attack2) → k.a = false → k.s = false →
      og = true → vx ≠ 0 → selectState101 cur k og vx = .run) ∧
    (¬(cur = .attack1 ∨ cur = .attack2) → k.a = false → k.s = false →
      og = true → vx = 0 → selectState101 cur k og vx = .idle) ∧
    (k.a = true → selectState101 cur k og vx ≠ .block) := by
  refine ⟨fun h => ?_, fun h ha => ?_, fun h ha hs => ?_,
          fun h ha hs hog => ?_, fun h ha hs hog hvx => ?_,
          fun h ha hs hog hvx => ?_, fun ha => ?_⟩
  · rw [selectState101, if_pos h]
  · simp [selectState101, h, ha]
  · simp [selectState101, h, ha, hs]
  · simp [selectState101, h, ha, hs, hog]
  · simp [selectState101, h, ha, hs, hog, hvx]
  · simp [selectState101, h, ha, hs, hog, hvx]
  · by_cases h : cur = .attack1 ∨ cur = .attack2
    · rw [selectState101, if_pos h]
      rcases h with h | h <;> rw [h] <;> intro hc <;> cases hc
    · simp [selectState101, h, ha]

/-- Witness for C5 at a concrete blocked-then-attacked state. -/
theorem c5_priority_witness :
    selectState101 .idle { Keys.none with s := true } true 5 = .block :=
  (c5_priority .idle { Keys.none with s := true } true 5).2.2.1
    (by intro h; rcases h with h | h <;> cases h) rfl rfl

/-! ### C6: health non-negativity after combat -/

/-- C6: refutation. `Boss.take_hit` does not clamp stored health at 0: a
boss at health 1 hit for 2 damage (the boosted player attack) stores
health `-1 < 0`. It is destroyed by the same call, but the claim's clamp
to 0 does not happen. -/
theorem c6_counterexample :
    (bossTakeHit 1 2).1 < 0 ∧ (bossTakeHit 1 2).2.1 = true := by
  constructor
  · have h : (bossTakeHit 1 2).1 = -1 := by with_unfolding_all rfl
    rw [h]
    norm_num
  · with_unfolding_all rfl

/-! ### C8: the player respawn on lethal damage -/

/-- C8: in the Act-1 contact-damage handler (`act1Hit`, the loop body of
`# Ghost hits player` in `main`), whenever a 10-damage hit brings the
player's health to 0 or below, that same iteration increments the death
counter, restores health to the maximum, zeroes the combo counter and
moves the player's x back to the segment start. -/
theorem c8_respawn (s : GameC) (h : s.health - 10 ≤ 0) :
    (act1Hit s).deaths = s.deaths + 1 ∧ (act1Hit s).health = s.max_health ∧
    (act1Hit s).combo = 0 ∧ (act1Hit s).x = s.start_x := by
  rw [act1Hit]
  simp only []
  rw [if_pos (by simpa using h)]
  exact ⟨rfl, rfl, rfl, rfl⟩

/-- Witness for C8: the spec's scenario — health 10, a 10-damage hit. -/
theorem c8_respawn_witness :
    (act1Hit { health := 10, max_health := 100, invulnerable := 0,
               deaths := 2, combo := 3, x := 5000, start_x := 100 }).deaths =
        2 + 1 ∧
    (act1Hit { health := 10, max_health := 100, invulnerable := 0,
               deaths := 2, combo := 3, x := 5000, start_x := 100 }).health =
        100 ∧
    (act1Hit { health := 10, max_health := 100, invulnerable := 0,
               deaths := 2, combo := 3, x := 5000, start_x := 100 }).combo =
        0 ∧
    (act1Hit { health := 10, max_health := 100, invulnerable := 0,
               deaths := 2, combo := 3, x := 5000, start_x := 100 }).x =
        100 :=
  c8_respawn _ (by norm_num)

/-! ### Helper lemmas about the Act-1 hit handler -/

theorem act1Hit_invuln (s : GameC) : (act1Hit s).invulnerable = 1 := by
  simp only [act1Hit]
  split <;> rfl

theorem act1Hit_max (s : GameC) : (act1Hit s).max_health = s.max_health := by
  simp only [act1Hit]
  split <;> rfl

theorem act1Hit_pos (s : GameC) (hm : 0 < s.max_health) :
    0 < (act1Hit s).health := by
  simp only [act1Hit]
  split
  · exact hm
  · rename_i hc
    show 0 < s.health - 10
    omega

theorem act1_fold_pos (l : List Ghost) (s : GameC) (h0 : 0 < s.health)
    (hm : 0 < s.max_health) :
    0 < (l.foldl (fun s _ => act1Hit s) s).health := by
  induction l generalizing s with
  | nil => simpa using h0
  | cons a l ih =>
      simp only [List.foldl_cons]
      exact ih _ (act1Hit_pos s hm) (by rw [act1Hit_max]; exact hm)

theorem act1_fold_invuln (l : List Ghost) (s : GameC) (h : l ≠ []) :
    (l.foldl (fun s _ => act1Hit s) s).invulnerable = 1 := by
  induction l generalizing s with
  | nil => exact absurd rfl h
  | cons a l ih =>
      simp only [List.foldl_cons]
      by_cases hl : l = []
      · subst hl
        simpa using act1Hit_invuln s
      · exact ih _ hl

/-! ### C6: destruction at zero health, but no clamp -/

/-- C6 (amended): a combat call whose damage brings health to 0 or below
triggers destruction or respawn in that same call — `Boss.take_hit` kills
exactly when the post-hit health is ≤ 0, `GhostEnemy.take_hit` kills
exactly when the pre-hit health is ≤ 1, and the Act-1 player-damage step
always leaves the player's stored health strictly positive — but the
stored health itself is not clamped at 0 (see the boss counterexample). -/
theorem c6_destroy_on_zero :
    (∀ h d : ℚ, (bossTakeHit h d).2.1 = true ↔ h - d ≤ 0) ∧
    (∀ g : Ghost, g.alive = true →
      ((ghostTakeHit g).1.alive = false ↔ g.health ≤ 1)) ∧
    (∀ (pr : Rect) (s : GameC) (gs : List Ghost),
      0 < s.health → 0 < s.max_health →
      0 < (act1ContactStep pr s gs).1.health) := by
  refine ⟨fun h d => ?_, fun g hg => ?_, fun pr s gs h0 hm => ?_⟩
  · simp only [bossTakeHit]
    split
    · rename_i hc
      simp [hc]
    · rename_i hc
      simp [hc]
  · simp only [ghostTakeHit]
    split
    · rename_i hc
      simp [hg]
      omega
    · rename_i hc
      simp
      omega
  · rw [act1ContactStep]
    split
    · exact act1_fold_pos _ _ h0 hm
    · exact h0

/-- Witness for C6 at the concrete defenders of the scenarios. -/
theorem c6_destroy_on_zero_witness :
    (bossTakeHit 1 2).2.1 = true ∧ (ghostTakeHit { gOv with health := 1 }).1.alive = false ∧
    0 < (act1ContactStep prOv sOpen [gOv]).1.health :=
  ⟨(c6_destroy_on_zero.1 1 2).mpr (by norm_num),
   (c6_destroy_on_zero.2.1 { gOv with health := 1 } (by with_unfolding_all rfl)).mpr
     (by with_unfolding_all decide),
   c6_destroy_on_zero.2.2 prOv sOpen [gOv] (by with_unfolding_all decide)
     (by with_unfolding_all decide)⟩

/-! ### C7: invulnerability gates only the player -/

/-- C7: refutation. Hits on enemies are not gated by any invulnerability
countdown: a ghost overlapping the attacking player is damaged by the
Act-1 attack resolution on two consecutive frames (health 3 → 2 → 1),
1/60 s apart, although the window the claim requires (the code's reset
constant is 1.0 s) would still be open; enemies carry no such countdown
and no reset happens on them. -/
theorem c7_counterexample :
    ((attackResolve prOv .attack1 (0, 0) [gOv]).2.map Ghost.health = [2]) ∧
    ((attackResolve prOv .attack1 (attackResolve prOv .attack1 (0, 0) [gOv]).1
        (attackResolve prOv .attack1 (0, 0) [gOv]).2).2.map Ghost.health =
      [1]) ∧
    (0 : ℚ) < 1 - 1/60 :=
  ⟨by with_unfolding_all rfl, by with_unfolding_all rfl, by norm_num⟩

/-- C7 (amended): the gating holds on the player side: the Act-1
contact-damage step does nothing while the player's invulnerability
countdown is positive, and any frame in which at least one ghost hit
lands resets the countdown to the constant 1.0; hits on enemies are
ungated (see the counterexample). -/
theorem c7_invuln_gate (pr : Rect) (s : GameC) (gs : List Ghost) :
    (0 < s.invulnerable → act1ContactStep pr s gs = (s, gs)) ∧
    (s.invulnerable ≤ 0 → gs.filter (fun g => collide pr g.rect) ≠ [] →
      (act1ContactStep pr s gs).1.invulnerable = 1) := by
  constructor
  · intro h
    rw [act1ContactStep, if_neg (by linarith)]
  · intro h hne
    rw [act1ContactStep, if_pos h]
    exact act1_fold_invuln _ _ hne

/-- Witness for C7: an open invulnerability window blocks the ghost-contact
damage entirely. -/
theorem c7_invuln_gate_witness :
    act1ContactStep prOv sInv [gOv] = (sInv, [gOv]) :=
  (c7_invuln_gate prOv sInv [gOv]).1 (by with_unfolding_all decide)

/-! ### C10: contact damage and enemy destruction -/

/-- C10: refutation. In the boss fight the enemies that deal contact
damage are not destroyed: `spritecollide(player, enemies, False)` keeps
them, and the damage block kills no enemy. The same ghost deals 10 damage,
stays in the active set, and deals 10 more a second later, once the 1.0 s
invulnerability has decayed over 60 frames. -/
theorem c10_counterexample :
    ((bossContactStep pB [eOv] [] true bFar).1.health = 90) ∧
    ((bossContactStep pB [eOv] [] true bFar).2.1 = [eOv]) ∧
    (invulnDecay^[60] (bossContactStep pB [eOv] [] true bFar).1.invulnerable
      = 0) ∧
    ((bossContactStep
        { (bossContactStep pB [eOv] [] true bFar).1 with
          invulnerable :=
            invulnDecay^[60]
              (bossContactStep pB [eOv] [] true bFar).1.invulnerable }
        [eOv] [] true bFar).1.health = 80) := by
  refine ⟨?_, ?_, ?_, ?_⟩ <;> with_unfolding_all rfl

/-- C10 (amended): in the Act-1 level loop the coupling does hold — every
ghost overlapping the player on a frame in which contact damage is
resolved is removed from the active enemy set by that same frame. -/
theorem c10_contact_kill (pr : Rect) (s : GameC) (gs : List Ghost)
    (g : Ghost) (hi : s.invulnerable ≤ 0) (hg : g ∈ gs)
    (hc : collide pr g.rect = true) :
    g ∉ (act1ContactStep pr s gs).2 := by
  rw [act1ContactStep, if_pos hi]
  intro hmem
  simp only [List.mem_filter, hc] at hmem
  exact absurd hmem.2 (by decide)

/-- Witness for C10's amended statement at the concrete overlap. -/
theorem c10_contact_kill_witness :
    gOv ∉ (act1ContactStep prOv sOpen [gOv]).2 :=
  c10_contact_kill prOv sOpen [gOv] gOv (by with_unfolding_all decide)
    (by simp) (by with_unfolding_all rfl)

/-! ### C9: the oscillating platform's displacement -/

/-- C9: refutation. A moving platform overshoots its configured amplitude:
direction only reverses after the displacement has already exceeded
`move_range`, so after 101 updates from the anchor the displacement is
202 > 200. -/
theorem c9_counterexample :
    ((fun p => Platform.update p 0)^[101] (mkPlatform 0 300 200 20 true)).x -
        (mkPlatform 0 300 200 20 true).start_x = 202 ∧
    (mkPlatform 0 300 200 20 true).move_range < 202 := by
  constructor
  · with_unfolding_all rfl
  · show (200:ℤ) < 202
    norm_num

/-- The inductive invariant of the oscillation: the displacement stays
within `move_range + move_speed`, and past `move_range` the direction
points back toward the anchor. -/
def PlatInv (q : Platform) : Prop :=
  q.moving = true ∧ q.move_range = 200 ∧ q.move_speed = 2 ∧
  (q.direction = 1 ∨ q.direction = -1) ∧
  -202 ≤ q.x - q.start_x ∧ q.x - q.start_x ≤ 202 ∧
  (200 < q.x - q.start_x → q.direction = -1) ∧
  (q.x - q.start_x < -200 → q.direction = 1)

theorem platInv_update (q : Platform) (h : PlatInv q) (dt : ℚ) :
    PlatInv (q.update dt) := by
  obtain ⟨hm, hr, hs, hd, h1, h2, h3, h4⟩ := h
  rw [Platform.update]
  simp only [hm, if_true]
  rw [hr, hs]
  rcases hd with hd | hd
  · have hA : q.x - q.start_x ≤ 200 := by
      by_contra hx
      have h5 := h3 (by omega)
      rw [hd] at h5
      exact absurd h5 (by decide)
    rw [hd]
    split
    · rename_i hc
      refine ⟨rfl, rfl, rfl, Or.inr rfl, ?_, ?_, ?_, ?_⟩ <;>
        (rcases lt_abs.mp hc with hx | hx <;> (dsimp only; omega))
    · rename_i hc
      have hc2 := abs_le.mp (not_lt.mp hc)
      refine ⟨rfl, rfl, rfl, Or.inl rfl, ?_, ?_, ?_, ?_⟩ <;>
        (dsimp only; omega)
  · have hA : -200 ≤ q.x - q.start_x := by
      by_contra hx
      have h5 := h4 (by omega)
      rw [hd] at h5
      exact absurd h5 (by decide)
    rw [hd]
    split
    · rename_i hc
      refine ⟨rfl, rfl, rfl, Or.inl rfl, ?_, ?_, ?_, ?_⟩ <;>
        (rcases lt_abs.mp hc with hx | hx <;> (dsimp only; omega))
    · rename_i hc
      have hc2 := abs_le.mp (not_lt.mp hc)
      refine ⟨rfl, rfl, rfl, Or.inr rfl, ?_, ?_, ?_, ?_⟩ <;>
        (dsimp only; omega)

theorem platUpdate_start (q : Platform) (dt : ℚ) :
    (q.update dt).start_x = q.start_x := by
  rw [Platform.update]
  split
  · dsimp only
    split <;> rfl
  · rfl

/-- C9 (amended): a moving platform's displacement from its anchor never
exceeds `move_range + move_speed` (202 with the constructed values): the
reversal happens one step late, so the amplitude bound holds only up to
one `move_speed` step of overshoot. -/
theorem c9_platform_bound (x0 y w h : ℤ) (n : ℕ) :
    |((fun p => Platform.update p 0)^[n] (mkPlatform x0 y w h true)).x - x0| ≤
      (mkPlatform x0 y w h true).move_range +
        (mkPlatform x0 y w h true).move_speed := by
  have key : ∀ m : ℕ,
      ((fun p => Platform.update p 0)^[m] (mkPlatform x0 y w h true)).start_x
          = x0 ∧
      PlatInv ((fun p => Platform.update p 0)^[m] (mkPlatform x0 y w h true))
      := by
    intro m
    induction m with
    | zero =>
        refine ⟨rfl, ?_⟩
        refine ⟨rfl, rfl, rfl, Or.inl rfl, ?_, ?_, ?_, ?_⟩ <;>
          simp [mkPlatform]
    | succ m ih =>
        rw [Function.iterate_succ_apply']
        exact ⟨by rw [platUpdate_start]; exact ih.1,
               platInv_update _ ih.2 0⟩
  obtain ⟨hs0, hinv⟩ := key n
  obtain ⟨_, _, _, _, hlo, hhi, _, _⟩ := hinv
  rw [hs0] at hlo hhi
  show _ ≤ (200 : ℤ) + 2
  rw [abs_le]
  omega

/-! ### C3 (amended): quiescent grounded states are dt = 0 fixed points -/

theorem pyInt_intCast (n : ℤ) : pyInt (n : ℚ) = n := by
  rw [pyInt]
  split
  · exact Int.floor_intCast n
  · exact Int.ceil_intCast n

theorem pyInt_int_add_half (n : ℤ) (hn : 0 ≤ n) : pyInt ((n : ℚ) + 1/2) = n := by
  have h0 : (0:ℚ) ≤ (n:ℚ) := by exact_mod_cast hn
  rw [pyInt, if_pos (by linarith)]
  rw [Int.floor_int_add]
  norm_num

/-- The state-selection stage never touches the kinematic fields. -/
theorem stateStep_kin (p : Player) (k : Keys) :
    (stateStep p k).rect = p.rect ∧ (stateStep p k).vx = p.vx ∧
    (stateStep p k).vy = p.vy ∧ (stateStep p k).on_ground = p.on_ground ∧
    (stateStep p k).jump_buffer = p.jump_buffer ∧
    (stateStep p k).dashing = p.dashing := by
  rw [stateStep]
  split <;> exact ⟨rfl, rfl, rfl, rfl, rfl, rfl⟩

/-- The animation stage never touches the kinematic fields. -/
theorem animStep_kin (a : PState → ℕ) (p : Player) (dt : ℚ) :
    (animStep a p dt).rect = p.rect ∧ (animStep a p dt).vx = p.vx ∧
    (animStep a p dt).vy = p.vy ∧ (animStep a p dt).on_ground = p.on_ground ∧
    (animStep a p dt).jump_buffer = p.jump_buffer ∧
    (animStep a p dt).dashing = p.dashing := by
  rw [animStep]
  dsimp only
  split
  · split <;> exact ⟨rfl, rfl, rfl, rfl, rfl, rfl⟩
  · exact ⟨rfl, rfl, rfl, rfl, rfl, rfl⟩

/-- On a quiescent grounded state, the whole kinematic chain of
`Player.update` with `dt = 0`, no inputs and no platforms evaluates to
an explicit record: gravity raises `vy` to 1/2 but integer truncation
keeps `y` in place and the floor clamp restores `vy = 0`. -/
theorem kinCore_eval (p : Player)
    (hb : p.rect.y + p.rect.h = SCREEN_HEIGHT) (hy : 0 ≤ p.rect.y)
    (hg : p.on_ground = true) (hvy : p.vy = 0)
    (hjb : p.jump_buffer = 0) (hd : p.dashing = false) :
    horizStep (varJumpStep (groundStep (platformCollide (gravityStep (jumpStep
      (timersStep (invulnStep (dashMoveStep (powerupStep p 0) Keys.none 0) 0)
        Keys.none 0))) [])) Keys.none) =
    { rect := p.rect, vx := 0, vy := 0, on_ground := true,
      timer := p.timer, adelay := p.adelay, idx := p.idx, state := p.state,
      jump_buffer := 0, coyote := COYOTE_TIME, health := p.health,
      max_health := p.max_health, invulnerable := max 0 p.invulnerable,
      facing_right := p.facing_right, dash_cooldown := max 0 p.dash_cooldown,
      dashing := false, dash_timer := p.dash_timer,
      damage_multiplier := if 0 < p.pu_damage then 2 else 1,
      speed_multiplier := if 0 < p.pu_speed then 3/2 else 1,
      pu_speed := max 0 p.pu_speed, pu_damage := max 0 p.pu_damage } := by
  simp only [powerupStep, dashMoveStep, invulnStep, timersStep,
    jumpStep, gravityStep, platformCollide, groundStep, varJumpStep, horizStep,
    Keys.none, List.foldl_nil, Rect.bottom, GRAVITY,
    hg, hvy, hjb, hd, hy, pyInt_int_add_half, pyInt_intCast]
  norm_num [← hb, pyInt_int_add_half, hy, pyInt_intCast]

/-- One `dt = 0`, no-input `Player.update` leaves a quiescent grounded
state's position and velocity in place and keeps it quiescent. -/
theorem quiet_update (a : PState → ℕ) (p : Player)
    (hb : p.rect.y + p.rect.h = SCREEN_HEIGHT) (hy : 0 ≤ p.rect.y)
    (hg : p.on_ground = true) (hvy : p.vy = 0)
    (hjb : p.jump_buffer = 0) (hd : p.dashing = false) :
    (playerUpdate a p Keys.none 0 []).rect = p.rect ∧
    (playerUpdate a p Keys.none 0 []).vx = 0 ∧
    (playerUpdate a p Keys.none 0 []).vy = 0 ∧
    (playerUpdate a p Keys.none 0 []).on_ground = true ∧
    (playerUpdate a p Keys.none 0 []).jump_buffer = 0 ∧
    (playerUpdate a p Keys.none 0 []).dashing = false := by
  have hK := kinCore_eval p hb hy hg hvy hjb hd
  simp only [playerUpdate]
  rw [hK]
  obtain ⟨a1, a2, a3, a4, a5, a6⟩ := animStep_kin a (stateStep _ Keys.none) 0
  obtain ⟨s1, s2, s3, s4, s5, s6⟩ := stateStep_kin _ Keys.none
  exact ⟨by rw [a1, s1], by rw [a2, s2], by rw [a3, s3],
         by rw [a4, s4], by rw [a5, s5], by rw [a6, s6]⟩

/-- C3 (amended): the per-frame advance is a fixed point for `dt = 0` only
on quiescent grounded states: with the actor resting on the world floor
(bottom on `SCREEN_HEIGHT`, `vy = vx = 0`, no buffered jump, not dashing,
no inputs held, no platforms), two successive `dt = 0` updates change
neither position nor velocity. In general a `dt = 0` update is not a
no-op, since gravity and integration are per-frame rather than dt-scaled
(see the counterexample). -/
theorem c3_quiescent (a : PState → ℕ) (p : Player)
    (hb : p.rect.y + p.rect.h = SCREEN_HEIGHT) (hy : 0 ≤ p.rect.y)
    (hg : p.on_ground = true) (hvx : p.vx = 0) (hvy : p.vy = 0)
    (hjb : p.jump_buffer = 0) (hd : p.dashing = false) :
    (playerUpdate a (playerUpdate a p Keys.none 0 [])
        Keys.none 0 []).rect.x = p.rect.x ∧
    (playerUpdate a (playerUpdate a p Keys.none 0 [])
        Keys.none 0 []).rect.y = p.rect.y ∧
    (playerUpdate a (playerUpdate a p Keys.none 0 [])
        Keys.none 0 []).vx = p.vx ∧
    (playerUpdate a (playerUpdate a p Keys.none 0 [])
        Keys.none 0 []).vy = p.vy := by
  obtain ⟨q1, q2, q3, q4, q5, q6⟩ := quiet_update a p hb hy hg hvy hjb hd
  obtain ⟨r1, r2, r3, r4, r5, r6⟩ :=
    quiet_update a (playerUpdate a p Keys.none 0 [])
      (by rw [q1]; exact hb) (by rw [q1]; exact hy) q4 q3 q5 q6
  exact ⟨by rw [r1, q1], by rw [r1, q1], by rw [r2, hvx], by rw [r3, hvy]⟩

/-- Witness for C3's amended statement: the resting spawn state. -/
theorem c3_quiescent_witness :
    (playerUpdate anims3 (playerUpdate anims3 pRest Keys.none 0 [])
        Keys.none 0 []).rect.x = pRest.rect.x ∧
    (playerUpdate anims3 (playerUpdate anims3 pRest Keys.none 0 [])
        Keys.none 0 []).rect.y = pRest.rect.y ∧
    (playerUpdate anims3 (playerUpdate anims3 pRest Keys.none 0 [])
        Keys.none 0 []).vx = pRest.vx ∧
    (playerUpdate anims3 (playerUpdate anims3 pRest Keys.none 0 [])
        Keys.none 0 []).vy = pRest.vy :=
  c3_quiescent anims3 pRest (by decide) (by decide) rfl rfl rfl rfl rfl

end Hamlet
